import Mathlib

/-!
Shallow embedding of the HomeWiseAI GPU/hardware detection core
(`src-tauri/src/gpu/{mod,apple,nvidia}.rs`, `src-tauri/src/commands.rs`,
`src-tauri/src/hardware.rs`).

Modelling conventions:
* External processes (nvidia-smi, nvcc, ldconfig, ioreg, powermetrics) are an
  explicit environment: each invocation outcome is a `CmdResult` (spawn failure
  or completion with an exit status and stdout/stderr text); invocations that
  the Rust code wraps in `tokio::time::timeout` are a `TimedResult CmdResult`.
  Process stdout is modelled as a `String` (valid UTF-8); the `from_utf8`
  failure branch of the NVIDIA probe is therefore not exercised.
* The process-wide mode flags (`TEST_MODE`, `ERROR_SIMULATION`,
  `TEST_GPU_TYPE`) become an explicit `ModeState` argument; the Apple backend
  cache (`CACHED_GPU_INFO`) becomes an explicit `Option GpuInfo` argument and
  result, threaded through the calls.
* `f32` values are modelled as `ℚ`; the program only stores hardcoded literals
  or parsed decimal text into these fields and never computes with them, and
  every literal involved is exactly representable, so rounding is irrelevant.
  `rust_parse_f32` models `str::parse::<f32>` on plain decimal literals
  (sign, digits, optional fractional part); exotic forms (exponents, inf, nan)
  are not modelled and parse to `none`.
* Rust slice indexing `values[i]` that can go out of bounds is modelled with
  `PanicOr`, making a Rust panic an explicit outcome.
* Each modelled operation also returns the list of external-process spawn
  events (`Ev`) it performed, plus backend-probe entry markers at the
  orchestrator level, so that "no probe runs" claims are statable.  For a
  probe abandoned by the orchestrator's outer timeout only the probe-entry
  marker is recorded (the abandoned future's own spawns are not tracked) and
  the cache is left unchanged (one resolution of the abandonment race).
-/

/-! ### String helpers mirroring the Rust standard library operations used -/

/-- Model of Rust `str::trim` (whitespace at both ends). -/
def rustTrim (s : String) : String :=
  ⟨((s.data.dropWhile Char.isWhitespace).reverse.dropWhile Char.isWhitespace).reverse⟩

/-- Split a character list at every character satisfying `p` (Rust
`str::split(char)` semantics: `n` separators give `n+1` pieces). -/
def splitCharAux (p : Char → Bool) : List Char → List Char → List (List Char)
  | [], acc => [acc.reverse]
  | c :: rest, acc =>
    if p c then acc.reverse :: splitCharAux p rest []
    else splitCharAux p rest (c :: acc)

/-- Model of Rust `str::split(c)` for a single-character pattern. -/
def rustSplitChar (s : String) (p : Char → Bool) : List String :=
  (splitCharAux p s.data []).map (fun l => ⟨l⟩)

/-- Is `pat` a prefix of `l`? -/
def isPrefixList : List Char → List Char → Bool
  | [], _ => true
  | _ :: _, [] => false
  | p :: ps, c :: cs => p == c && isPrefixList ps cs

/-- Does `pat` occur somewhere in `l`? -/
def containsSubAux (pat : List Char) : List Char → Bool
  | [] => isPrefixList pat []
  | c :: cs => isPrefixList pat (c :: cs) || containsSubAux pat cs

/-- Model of Rust `str::contains(&str)` (substring occurrence). -/
def containsSub (s pat : String) : Bool :=
  containsSubAux pat.data s.data

/-- Fuel-driven splitter for a multi-character pattern (`str::split(&str)`).
The fuel is always instantiated to `length + 1`, which suffices because the
pattern is nonempty. -/
def splitOnListFuel (pat : List Char) : Nat → List Char → List Char → List (List Char)
  | 0, rest, acc => [acc.reverse ++ rest]
  | _ + 1, [], acc => [acc.reverse]
  | n + 1, c :: cs, acc =>
    if isPrefixList pat (c :: cs) then
      acc.reverse :: splitOnListFuel pat n (List.drop (pat.length - 1) cs) []
    else
      splitOnListFuel pat n cs (c :: acc)

/-- Model of Rust `str::split(&str)` for a nonempty string pattern. -/
def rustSplitOnStr (s pat : String) : List String :=
  if pat.data = [] then [s]
  else (splitOnListFuel pat.data (s.data.length + 1) s.data []).map (fun l => ⟨l⟩)

/-- Drop one trailing carriage return, as Rust `str::lines` does. -/
def stripTrailingCr (l : List Char) : List Char :=
  match l.getLast? with
  | some '\r' => l.dropLast
  | _ => l

/-- Model of Rust `str::lines`: split on `'\n'`, drop a final empty piece,
strip one trailing `'\r'` from each line. -/
def rustLines (s : String) : List String :=
  let parts := splitCharAux (fun c => c == '\n') s.data []
  let parts :=
    match parts.getLast? with
    | some [] => parts.dropLast
    | _ => parts
  parts.map (fun l => ⟨stripTrailingCr l⟩)

/-- Model of Rust `str::split_whitespace` (nonempty maximal runs). -/
def splitWhitespace (s : String) : List String :=
  (splitCharAux (fun c => c.isWhitespace) s.data []).filterMap
    (fun l => if l = [] then none else some ⟨l⟩)

/-- Model of Rust `str::trim_end_matches(c)`: remove every trailing `c`. -/
def trimEndMatchesChar (s : String) (c : Char) : String :=
  ⟨(s.data.reverse.dropWhile (fun x => x == c)).reverse⟩

/-- Accumulate a digit list into a number. -/
def digitsToNat : List Char → Nat → Nat
  | [], acc => acc
  | c :: cs, acc => digitsToNat cs (acc * 10 + (c.toNat - '0'.toNat))

/-- Parse a nonempty all-digit character list (after an optional leading
`'+'` has been removed), the integer grammar of Rust `str::parse::<uN>`. -/
def rustParseNatList (l : List Char) : Option Nat :=
  if l ≠ [] ∧ l.all (fun c => c.isDigit) then some (digitsToNat l 0) else none

/-- Model of Rust `str::parse::<u32>()` (range-checked). -/
def rust_parse_u32 (s : String) : Option Nat :=
  let l := if s.data.head? = some '+' then s.data.tail else s.data
  match rustParseNatList l with
  | some n => if n < 2 ^ 32 then some n else none
  | none => none

/-- Model of Rust `str::parse::<u64>()` (range-checked). -/
def rust_parse_u64 (s : String) : Option Nat :=
  let l := if s.data.head? = some '+' then s.data.tail else s.data
  match rustParseNatList l with
  | some n => if n < 2 ^ 64 then some n else none
  | none => none

/-- Model of Rust `str::parse::<f32>()` on plain decimal literals:
optional sign, integer digits, optional `.` and fractional digits. -/
def rust_parse_f32 (s : String) : Option ℚ :=
  let (neg, body) :=
    if s.data.head? = some '-' then (true, s.data.tail)
    else if s.data.head? = some '+' then (false, s.data.tail)
    else (false, s.data)
  match splitCharAux (fun c => c == '.') body [] with
  | [intPart] =>
    (rustParseNatList intPart).map (fun n => if neg then -(n : ℚ) else (n : ℚ))
  | [intPart, fracPart] =>
    match rustParseNatList intPart, rustParseNatList fracPart with
    | some i, some f =>
      let q : ℚ := (i : ℚ) + (f : ℚ) / ((10 : ℚ) ^ fracPart.length)
      some (if neg then -q else q)
    | _, _ => none
  | _ => none

/-! ### Data model (`gpu/mod.rs`) -/

/-- `GpuType` from `gpu/mod.rs`. -/
inductive GpuType where
  | Apple
  | Nvidia
  | None
  deriving DecidableEq, BEq, Repr

/-- `GpuInfo` from `gpu/mod.rs`; `f32` fields are modelled as `ℚ`,
`u32` as range-limited `Nat`. -/
structure GpuInfo where
  gpu_type : GpuType
  cuda_version : Option String
  driver_version : Option String
  compute_capability : Option String
  temperature_c : Option ℚ
  power_usage_w : Option ℚ
  utilization_percent : Option ℚ
  memory_total_mb : Nat
  memory_used_mb : Option Nat
  memory_free_mb : Option Nat
  deriving DecidableEq, Repr

/-- The process-wide mutable flags of `gpu/mod.rs` (`TEST_MODE`,
`ERROR_SIMULATION`, `TEST_GPU_TYPE`), made an explicit state value. -/
structure ModeState where
  testMode : Bool
  errorSimulation : Bool
  testGpuType : GpuType
  deriving DecidableEq, Repr

/-- `set_test_mode` from `gpu/mod.rs` as a state transformer. -/
def set_test_mode (enabled : Bool) (m : ModeState) : ModeState :=
  { m with testMode := enabled }

/-- `simulate_error` from `gpu/mod.rs` as a state transformer. -/
def simulate_error (enabled : Bool) (m : ModeState) : ModeState :=
  { m with errorSimulation := enabled }

/-- `set_test_gpu_type` from `gpu/mod.rs` as a state transformer. -/
def set_test_gpu_type (g : GpuType) (m : ModeState) : ModeState :=
  { m with testGpuType := g }

/-- Outcome of spawning one external process. -/
inductive CmdResult where
  /-- `Command::output()` itself returned `Err` (tool missing, spawn error). -/
  | spawnFail (msg : String)
  /-- The process ran: exit-status success flag, stdout, stderr. -/
  | finished (success : Bool) (stdout : String) (stderr : String)
  deriving DecidableEq, Repr

/-- Outcome of an operation raced against a `tokio::time::timeout`. -/
inductive TimedResult (α : Type) where
  | timedOut
  | completed (r : α)
  deriving DecidableEq, Repr

/-- A value or a Rust panic. -/
inductive PanicOr (α : Type) where
  | panicked (msg : String)
  | ret (a : α)
  deriving DecidableEq, Repr

/-- Trace events: backend-probe entries (orchestrator level) and external
process invocations. -/
inductive Ev where
  | nvidiaProbe
  | appleProbe
  | evSmiQuery
  | evNvcc
  | evLdconfig
  | evSmiDriver
  | evSmiProps
  | evIoreg
  | evPowermetrics
  deriving DecidableEq, BEq, Repr

/-- The backend-probe entry events of a trace. -/
def probeEvents (tr : List Ev) : List Ev :=
  tr.filter (fun e => e == Ev.nvidiaProbe || e == Ev.appleProbe)

/-- The fixture record hardcoded in `apple::detect_gpu` for test mode. -/
def appleFixture : GpuInfo :=
  { gpu_type := GpuType.Apple
    cuda_version := none
    driver_version := some "Test Driver"
    compute_capability := none
    temperature_c := some 45
    power_usage_w := some 15
    utilization_percent := some 30
    memory_total_mb := 8192
    memory_used_mb := some 2048
    memory_free_mb := some 6144 }

/-- The fixture record hardcoded in `nvidia::detect_gpu` for test mode. -/
def nvidiaFixture : GpuInfo :=
  { gpu_type := GpuType.Nvidia
    cuda_version := some "11.7"
    driver_version := some "515.65.01"
    compute_capability := some "8.6"
    temperature_c := some 65
    power_usage_w := some 150
    utilization_percent := some 80
    memory_total_mb := 8192
    memory_used_mb := some 4096
    memory_free_mb := some 4096 }

/-- The synthesized "no accelerator" record of `gpu/mod.rs` (used both in the
test branch for `GpuType::None` and after all real backends fail). -/
def noneGpuInfo : GpuInfo :=
  { gpu_type := GpuType.None
    cuda_version := none
    driver_version := none
    compute_capability := none
    temperature_c := none
    power_usage_w := none
    utilization_percent := none
    memory_total_mb := 0
    memory_used_mb := none
    memory_free_mb := none }

/-- The memory-sum invariant as a boolean predicate: when both used and free
memory are present, their sum equals total memory. -/
def memInv (i : GpuInfo) : Bool :=
  match i.memory_used_mb, i.memory_free_mb with
  | some u, some f => u + f == i.memory_total_mb
  | _, _ => true

/-! ### Apple backend (`gpu/apple.rs`) -/

/-- Environment for one `apple::detect_gpu` call: the outcomes of the two
external processes it can spawn. -/
structure AppleEnv where
  ioreg : CmdResult
  powermetrics : CmdResult
  deriving DecidableEq, Repr

/-- One powermetrics metric: find the line containing `marker`, take the text
after the first `':'`, trim it, strip trailing unit characters, parse `f32`
(the shared shape of the three parses in `apple::get_gpu_metrics`). -/
def metricLine (out marker : String) (unit : Char) : Option ℚ :=
  (((rustLines out).find? (fun l => containsSub l marker)).bind
    (fun l => (rustSplitChar l (fun c => c == ':')).get? 1)).bind
    (fun v => rust_parse_f32 (trimEndMatchesChar (rustTrim v) unit))

/-- `apple::get_gpu_metrics`: returns `(utilization, power, temperature)`.
A spawn failure is an error; an unsuccessful exit status degrades to
`(None, None, None)`; parse failures degrade each field to `None`. -/
def get_gpu_metrics (e : AppleEnv) :
    Except String (Option ℚ × Option ℚ × Option ℚ) × List Ev :=
  match e.powermetrics with
  | CmdResult.spawnFail msg =>
    (Except.error ("Failed to execute powermetrics: " ++ msg), [Ev.evPowermetrics])
  | CmdResult.finished success stdout _ =>
    if !success then (Except.ok (none, none, none), [Ev.evPowermetrics])
    else
      let utilization := metricLine stdout "GPU Active" '%'
      let power := metricLine stdout "GPU Power" 'W'
      let temperature := metricLine stdout "GPU die temperature" 'C'
      (Except.ok (utilization, power, temperature), [Ev.evPowermetrics])

/-- The record built by `apple::parse_gpu_info` (the model name is only
logged, never stored, so all success branches build the same record). -/
def appleParsedInfo (memory_mb : Nat) : GpuInfo :=
  { gpu_type := GpuType.Apple
    cuda_version := none
    driver_version := none
    compute_capability := none
    temperature_c := none
    power_usage_w := none
    utilization_percent := none
    memory_total_mb := memory_mb
    memory_used_mb := none
    memory_free_mb := none }

/-- `apple::parse_gpu_info`: extract `gpu-memory-total-size` (default 8192),
require one of the recognized model substrings. -/
def parse_gpu_info (output : String) : Except String GpuInfo :=
  let memory_mb :=
    ((((rustLines output).find? (fun l => containsSub l "gpu-memory-total-size")).bind
      (fun l => (rustSplitChar l (fun c => c == '=')).get? 1)).bind
      (fun v => rust_parse_u32 (rustTrim v))).getD 8192
  if containsSub output "M1 Pro" then Except.ok (appleParsedInfo memory_mb)
  else if containsSub output "M1 Max" then Except.ok (appleParsedInfo memory_mb)
  else if containsSub output "M1" then Except.ok (appleParsedInfo memory_mb)
  else if containsSub output "M2" then Except.ok (appleParsedInfo memory_mb)
  else Except.error "No Apple Silicon GPU found"

/-- `apple::detect_gpu`: error simulation, then test-mode fixture, then the
`CACHED_GPU_INFO` cache, then real detection (ioreg, powermetrics metrics,
parse, cache write).  Returns (result, new cache, spawn events). -/
def apple_detect_gpu (m : ModeState) (cache : Option GpuInfo) (e : AppleEnv) :
    Except String GpuInfo × Option GpuInfo × List Ev :=
  if m.errorSimulation then (Except.error "Simulated GPU error", cache, [])
  else if m.testMode then (Except.ok appleFixture, cache, [])
  else
    match cache with
    | some cached_info => (Except.ok cached_info, cache, [])
    | none =>
      match e.ioreg with
      | CmdResult.spawnFail msg =>
        (Except.error ("Failed to execute ioreg: " ++ msg), cache, [Ev.evIoreg])
      | CmdResult.finished success stdout stderrTxt =>
        if !success then
          (Except.error ("ioreg command failed: " ++ stderrTxt), cache, [Ev.evIoreg])
        else
          match get_gpu_metrics e with
          | (Except.error msg, tr) => (Except.error msg, cache, Ev.evIoreg :: tr)
          | (Except.ok (utilization, power, temperature), tr) =>
            match parse_gpu_info stdout with
            | Except.error msg => (Except.error msg, cache, Ev.evIoreg :: tr)
            | Except.ok gi =>
              let gpu_info :=
                { gi with utilization_percent := utilization
                          power_usage_w := power
                          temperature_c := temperature }
              (Except.ok gpu_info, some gpu_info, Ev.evIoreg :: tr)

/-- `commands::detect_gpu`: the host-facing Tauri command.  It calls
`gpu::apple::detect_gpu` directly (not the `gpu::detect_gpu` orchestrator). -/
def commands_detect_gpu (m : ModeState) (cache : Option GpuInfo) (e : AppleEnv) :
    Except String GpuInfo × Option GpuInfo × List Ev :=
  apple_detect_gpu m cache e

/-! ### NVIDIA backend (`gpu/nvidia.rs`) -/

/-- `CudaDeviceProperties` from `gpu/nvidia.rs` (`u32`/`u64` as `Nat`). -/
structure CudaDeviceProperties where
  compute_capability_major : Nat
  compute_capability_minor : Nat
  total_memory_bytes : Nat
  max_threads_per_block : Nat
  max_shared_memory_per_block : Nat
  warp_size : Nat
  deriving DecidableEq, Repr

/-- The `HashMap` built by `nvidia::get_cuda_info`, which only ever holds the
keys `"cuda_version"` and `"cudnn_version"`, modelled by presence fields. -/
structure CudaInfo where
  cuda_version : Option String
  cudnn_version : Option String
  deriving DecidableEq, Repr

/-- Environment for one `nvidia::detect_gpu` call: outcomes of the external
processes it can spawn. -/
structure NvidiaEnv where
  /-- Main `nvidia-smi` memory/metrics query (timeout-wrapped). -/
  smiQuery : TimedResult CmdResult
  /-- `nvcc --version` (timeout-wrapped). -/
  nvcc : TimedResult CmdResult
  /-- `sh -c "ldconfig -p | grep cudnn | head -n 1"` (no timeout). -/
  ldconfig : CmdResult
  /-- `nvidia-smi --query-gpu=driver_version` (timeout-wrapped). -/
  smiDriver : TimedResult CmdResult
  /-- `nvidia-smi --query-gpu=compute_cap,memory.total` (timeout-wrapped). -/
  smiProps : TimedResult CmdResult
  deriving DecidableEq, Repr

/-- `output_str.trim().split(',').map(|s| s.trim()).collect()`. -/
def csvFields (out : String) : List String :=
  (rustSplitChar (rustTrim out) (fun c => c == ',')).map rustTrim

/-- The fixture returned by `nvidia::get_cuda_device_properties` in test mode. -/
def cudaPropsFixture : CudaDeviceProperties :=
  { compute_capability_major := 8
    compute_capability_minor := 6
    total_memory_bytes := 8589934592
    max_threads_per_block := 1024
    max_shared_memory_per_block := 49152
    warp_size := 32 }

/-- `nvidia::get_cuda_device_properties`.  The query requests two fields and
the guard only checks `values.len() < 2`, yet fields at indexes 2..5 are then
read with panicking slice indexing; every `values[i]` is modelled by
`List.get?` with an explicit `panicked` outcome when out of bounds, in the
Rust evaluation order of the struct literal.  The `u64` multiplication
`* 1024 * 1024` is modelled with release-mode wrapping (`% 2 ^ 64`). -/
def get_cuda_device_properties (m : ModeState) (e : NvidiaEnv) :
    PanicOr (Option CudaDeviceProperties) × List Ev :=
  if m.testMode then (PanicOr.ret (some cudaPropsFixture), [])
  else
    match e.smiProps with
    | TimedResult.timedOut => (PanicOr.ret none, [Ev.evSmiProps])
    | TimedResult.completed (CmdResult.spawnFail _) => (PanicOr.ret none, [Ev.evSmiProps])
    | TimedResult.completed (CmdResult.finished success stdout _) =>
      (if !success then PanicOr.ret none
       else
        let values := csvFields stdout
        if values.length < 2 then PanicOr.ret none
        else
          match rust_parse_u32 (values.getD 0 "") with
          | none => PanicOr.ret none
          | some major =>
            match rust_parse_u32 (values.getD 1 "") with
            | none => PanicOr.ret none
            | some minor =>
              match values.get? 2 with
              | none => PanicOr.panicked "index out of bounds"
              | some v2 =>
                match rust_parse_u64 v2 with
                | none => PanicOr.ret none
                | some mem =>
                  match values.get? 3 with
                  | none => PanicOr.panicked "index out of bounds"
                  | some v3 =>
                    match rust_parse_u32 v3 with
                    | none => PanicOr.ret none
                    | some threads =>
                      match values.get? 4 with
                      | none => PanicOr.panicked "index out of bounds"
                      | some v4 =>
                        match rust_parse_u32 v4 with
                        | none => PanicOr.ret none
                        | some sharedMem =>
                          match values.get? 5 with
                          | none => PanicOr.panicked "index out of bounds"
                          | some v5 =>
                            match rust_parse_u32 v5 with
                            | none => PanicOr.ret none
                            | some warp =>
                              PanicOr.ret (some
                                { compute_capability_major := major
                                  compute_capability_minor := minor
                                  total_memory_bytes := mem * 1024 * 1024 % 2 ^ 64
                                  max_threads_per_block := threads
                                  max_shared_memory_per_block := sharedMem
                                  warp_size := warp })
       , [Ev.evSmiProps])

/-- `nvidia::get_cuda_info`: nvcc release-line parse plus best-effort cuDNN
lookup; any nvcc failure degrades to `none`. -/
def get_cuda_info (m : ModeState) (e : NvidiaEnv) : Option CudaInfo × List Ev :=
  if m.testMode then
    (some { cuda_version := some "11.7", cudnn_version := some "8.5.0" }, [])
  else
    match e.nvcc with
    | TimedResult.timedOut => (none, [Ev.evNvcc])
    | TimedResult.completed (CmdResult.spawnFail _) => (none, [Ev.evNvcc])
    | TimedResult.completed (CmdResult.finished success stdout _) =>
      if !success then (none, [Ev.evNvcc])
      else
        let cudaVersion :=
          ((rustLines stdout).find? (fun l => containsSub l "release")).bind
            (fun l => (splitWhitespace l).getLast?)
        let cudnnVersion :=
          match e.ldconfig with
          | CmdResult.spawnFail _ => none
          | CmdResult.finished success2 stdout2 _ =>
            if success2 then
              ((rustSplitOnStr stdout2 "libcudnn.so.").get? 1).bind
                (fun s => (splitWhitespace s).head?)
            else none
        (some { cuda_version := cudaVersion, cudnn_version := cudnnVersion },
         [Ev.evNvcc, Ev.evLdconfig])

/-- `nvidia::get_driver_version`: best-effort, any failure is `none`. -/
def get_driver_version (m : ModeState) (e : NvidiaEnv) : Option String × List Ev :=
  if m.testMode then (some "515.65.01", [])
  else
    match e.smiDriver with
    | TimedResult.timedOut => (none, [Ev.evSmiDriver])
    | TimedResult.completed (CmdResult.spawnFail _) => (none, [Ev.evSmiDriver])
    | TimedResult.completed (CmdResult.finished success stdout _) =>
      (if !success then none else some (rustTrim stdout), [Ev.evSmiDriver])

/-- `nvidia::detect_gpu`: error simulation, then the test fixture (only when
the selected test GPU type is Nvidia), then real detection: the main
`nvidia-smi` query (timeout-wrapped), a `values.len() < 7` check, mandatory
parses of `values[1..=6]` each of which fails the whole probe, then the three
best-effort sub-calls.  A panic from `get_cuda_device_properties` propagates. -/
def nvidia_detect_gpu (m : ModeState) (e : NvidiaEnv) :
    PanicOr (Except String GpuInfo) × List Ev :=
  if m.errorSimulation then (PanicOr.ret (Except.error "Simulated GPU error"), [])
  else if m.testMode && m.testGpuType == GpuType.Nvidia then
    (PanicOr.ret (Except.ok nvidiaFixture), [])
  else
    match e.smiQuery with
    | TimedResult.timedOut =>
      (PanicOr.ret (Except.error "NVIDIA GPU detection timed out"), [Ev.evSmiQuery])
    | TimedResult.completed (CmdResult.spawnFail _) =>
      (PanicOr.ret (Except.error "NVIDIA GPU not found"), [Ev.evSmiQuery])
    | TimedResult.completed (CmdResult.finished success stdout _) =>
      if !success then (PanicOr.ret (Except.error "NVIDIA GPU not found"), [Ev.evSmiQuery])
      else
        let values := csvFields stdout
        if values.length < 7 then
          (PanicOr.ret (Except.error "Invalid nvidia-smi output format"), [Ev.evSmiQuery])
        else
          match rust_parse_u32 (values.getD 1 "") with
          | none => (PanicOr.ret (Except.error "Failed to parse total memory"), [Ev.evSmiQuery])
          | some memory_total =>
            match rust_parse_u32 (values.getD 2 "") with
            | none => (PanicOr.ret (Except.error "Failed to parse used memory"), [Ev.evSmiQuery])
            | some memory_used =>
              match rust_parse_u32 (values.getD 3 "") with
              | none => (PanicOr.ret (Except.error "Failed to parse free memory"), [Ev.evSmiQuery])
              | some memory_free =>
                match rust_parse_f32 (values.getD 4 "") with
                | none => (PanicOr.ret (Except.error "Failed to parse temperature"), [Ev.evSmiQuery])
                | some temperature =>
                  match rust_parse_f32 (values.getD 5 "") with
                  | none => (PanicOr.ret (Except.error "Failed to parse power usage"), [Ev.evSmiQuery])
                  | some power =>
                    match rust_parse_f32 (values.getD 6 "") with
                    | none =>
                      (PanicOr.ret (Except.error "Failed to parse GPU utilization"), [Ev.evSmiQuery])
                    | some utilization =>
                      let (cuda_info, tr1) := get_cuda_info m e
                      let cuda_version := cuda_info.bind (fun i => i.cuda_version)
                      let (driver_version, tr2) := get_driver_version m e
                      let (props, tr3) := get_cuda_device_properties m e
                      match props with
                      | PanicOr.panicked msg =>
                        (PanicOr.panicked msg, Ev.evSmiQuery :: (tr1 ++ tr2 ++ tr3))
                      | PanicOr.ret props =>
                        let compute_capability := props.map (fun p =>
                          toString p.compute_capability_major ++ "." ++
                            toString p.compute_capability_minor)
                        (PanicOr.ret (Except.ok
                          { gpu_type := GpuType.Nvidia
                            cuda_version := cuda_version
                            driver_version := driver_version
                            compute_capability := compute_capability
                            temperature_c := some temperature
                            power_usage_w := some power
                            utilization_percent := some utilization
                            memory_total_mb := memory_total
                            memory_used_mb := some memory_used
                            memory_free_mb := some memory_free }),
                         Ev.evSmiQuery :: (tr1 ++ tr2 ++ tr3))

/-! ### Orchestrator (`gpu/mod.rs::detect_gpu`) -/

/-- Environment for one orchestrator call: whether each backend's outer 5 s
timeout fires, and each backend's own process environment. -/
structure RealEnv where
  nvidiaTimedOut : Bool
  nvidiaEnv : NvidiaEnv
  appleTimedOut : Bool
  appleEnv : AppleEnv
  deriving DecidableEq, Repr

/-- The Apple half of the orchestrator's real-detection fallback chain
(`timeout(5s, apple::detect_gpu())` and the subsequent no-accelerator
synthesis), with the probe-so-far trace `tr` prepended. -/
def appleStage (m : ModeState) (cache : Option GpuInfo) (e : RealEnv) (tr : List Ev) :
    PanicOr (Except String GpuInfo) × Option GpuInfo × List Ev :=
  if e.appleTimedOut then
    (PanicOr.ret (Except.ok noneGpuInfo), cache, tr ++ [Ev.appleProbe])
  else
    let (r, cache2, atr) := apple_detect_gpu m cache e.appleEnv
    match r with
    | Except.ok info => (PanicOr.ret (Except.ok info), cache2, tr ++ Ev.appleProbe :: atr)
    | Except.error _ =>
      (PanicOr.ret (Except.ok noneGpuInfo), cache2, tr ++ Ev.appleProbe :: atr)

/-- `gpu::detect_gpu` (the orchestrator in `gpu/mod.rs`): error simulation,
then the test-mode dispatch on the selected type, else real detection —
NVIDIA under a timeout, then Apple under a timeout (`appleStage`), then the
synthesized no-accelerator record.  Returns (result, new cache, trace). -/
def gpu_detect_gpu (m : ModeState) (cache : Option GpuInfo) (e : RealEnv) :
    PanicOr (Except String GpuInfo) × Option GpuInfo × List Ev :=
  if m.errorSimulation then
    (PanicOr.ret (Except.error "Simulated GPU error"), cache, [])
  else if m.testMode then
    match m.testGpuType with
    | GpuType.Nvidia =>
      let (r, tr) := nvidia_detect_gpu m e.nvidiaEnv
      (r, cache, tr)
    | GpuType.Apple =>
      let (r, cache2, tr) := apple_detect_gpu m cache e.appleEnv
      (PanicOr.ret r, cache2, tr)
    | GpuType.None => (PanicOr.ret (Except.ok noneGpuInfo), cache, [])
  else
    if e.nvidiaTimedOut then
      -- NVIDIA probe abandoned by the outer timeout; proceed to Apple.
      appleStage m cache e [Ev.nvidiaProbe]
    else
      let (r, tr) := nvidia_detect_gpu m e.nvidiaEnv
      match r with
      | PanicOr.panicked msg => (PanicOr.panicked msg, cache, Ev.nvidiaProbe :: tr)
      | PanicOr.ret (Except.ok info) =>
        (PanicOr.ret (Except.ok info), cache, Ev.nvidiaProbe :: tr)
      | PanicOr.ret (Except.error _) => appleStage m cache e (Ev.nvidiaProbe :: tr)

/-! ### Host hardware collector (`hardware.rs`) -/

/-- `HardwareError` from `hardware.rs`. -/
inductive HardwareError where
  | CpuError (msg : String)
  | MemoryError (msg : String)
  | CompatibilityError (msg : String)
  | SystemError (msg : String)
  deriving DecidableEq, Repr

/-- `HardwareInfo` from `hardware.rs` (`u64` as `Nat`). -/
structure HardwareInfo where
  cpu_count : Nat
  cpu_brand : String
  memory_total : Nat
  memory_used : Nat
  platform : String
  deriving DecidableEq, Repr

/-- `HardwareInfo::validate`. -/
def HardwareInfo.validate (h : HardwareInfo) : Except HardwareError Unit :=
  if h.cpu_count = 0 then Except.error (HardwareError.CpuError "Invalid CPU count")
  else if rustTrim h.cpu_brand = "" then
    Except.error (HardwareError.CpuError "Invalid CPU brand information")
  else if h.memory_total = 0 then
    Except.error (HardwareError.MemoryError "Invalid total memory value")
  else if h.memory_total < h.memory_used then
    Except.error (HardwareError.MemoryError "Used memory exceeds total memory")
  else Except.ok ()

/-- One refreshed `sysinfo::System` snapshot, the ambient state read by
`try_get_hardware_info`: the brand strings of the CPUs, the two memory
counters, and `std::env::consts::OS`. -/
structure SysSnapshot where
  cpuBrands : List String
  memoryTotal : Nat
  memoryUsed : Nat
  osName : String
  deriving DecidableEq, Repr

/-- The Rust tail `info.validate()?; Ok(info)`. -/
def validateThen (info : HardwareInfo) : Except HardwareError HardwareInfo :=
  match info.validate with
  | Except.error e => Except.error e
  | Except.ok _ => Except.ok info

/-- `try_get_hardware_info`: builds a `HardwareInfo` from one snapshot with
per-field error handling, validating before returning. -/
def try_get_hardware_info (s : SysSnapshot) : Except HardwareError HardwareInfo :=
  let cpu_count := s.cpuBrands.length
  if cpu_count = 0 then Except.error (HardwareError.CpuError "No CPU cores detected")
  else
    match Option.filter (fun b => !(b == "")) (s.cpuBrands.head?.map rustTrim) with
    | none => Except.error (HardwareError.CpuError "Failed to retrieve CPU information")
    | some cpu_brand =>
      if s.memoryTotal = 0 then
        Except.error (HardwareError.MemoryError "Failed to detect system memory")
      else
        let platform := if s.osName = "macos" then "macos" else s.osName
        let info : HardwareInfo :=
          { cpu_count := cpu_count
            cpu_brand := cpu_brand
            memory_total := s.memoryTotal
            memory_used := s.memoryUsed
            platform := platform }
        validateThen info

/-- The retry loop of `get_hardware_info` over the remaining snapshots,
carrying `last_error`; also counts the attempts actually made. -/
def ghiLoop : List SysSnapshot → Option HardwareError →
    Except HardwareError HardwareInfo × Nat
  | [], lastError =>
    (Except.error (lastError.getD (HardwareError.SystemError
      "Failed to retrieve hardware information after multiple attempts")), 0)
  | s :: rest, _ =>
    match try_get_hardware_info s with
    | Except.ok info =>
      match info.validate with
      | Except.error e =>
        let (r, n) := ghiLoop rest (some e)
        (r, n + 1)
      | Except.ok _ => (Except.ok info, 1)
    | Except.error e =>
      let (r, n) := ghiLoop rest (some e)
      (r, n + 1)

/-- `get_hardware_info`: up to `MAX_RETRIES = 3` attempts, each validated
both inside `try_get_hardware_info` and again by the loop; the last error is
returned if no attempt succeeds.  The three snapshots are the system states
observed by the three attempts. -/
def get_hardware_info (s1 s2 s3 : SysSnapshot) :
    Except HardwareError HardwareInfo × Nat :=
  ghiLoop [s1, s2, s3] none

/-- The failure produced by processing one snapshot exactly as one loop
iteration of `get_hardware_info` does (`none` when the attempt succeeds). -/
def attemptError (s : SysSnapshot) : Option HardwareError :=
  match try_get_hardware_info s with
  | Except.error e => some e
  | Except.ok info =>
    match info.validate with
    | Except.error e => some e
    | Except.ok _ => none

/-! ### Concrete sample environments used by counterexamples and witnesses -/

/-- An NVIDIA environment in which every external call times out. -/
def nvAllTimeout : NvidiaEnv :=
  { smiQuery := TimedResult.timedOut
    nvcc := TimedResult.timedOut
    ldconfig := CmdResult.spawnFail "x"
    smiDriver := TimedResult.timedOut
    smiProps := TimedResult.timedOut }

/-- An Apple environment on a host with an M1 GPU reporting 4096 MB, where
powermetrics exits unsuccessfully (metrics degrade to `None`). -/
def appleM1Env : AppleEnv :=
  { ioreg := CmdResult.finished true "\"gpu-memory-total-size\" = 4096\nM1" ""
    powermetrics := CmdResult.finished false "" "" }

/-- An Apple environment on a host without the ioreg tool. -/
def appleAbsentEnv : AppleEnv :=
  { ioreg := CmdResult.spawnFail "No such file or directory"
    powermetrics := CmdResult.spawnFail "No such file or directory" }

/-- A snapshot on which every hardware-info attempt fails (no CPUs). -/
def badSnapshot : SysSnapshot :=
  { cpuBrands := [], memoryTotal := 0, memoryUsed := 0, osName := "linux" }

/-- An all-failing real environment: nvidia-smi cannot be spawned and ioreg
cannot be spawned (a host with neither tool). -/
def fullMissEnv : RealEnv :=
  { nvidiaTimedOut := false
    nvidiaEnv :=
      { nvAllTimeout with
        smiQuery := TimedResult.completed (CmdResult.spawnFail "No such file or directory") }
    appleTimedOut := false
    appleEnv := appleAbsentEnv }

/-- Environment for the C1 scenario: nvidia-smi absent, Apple M1 present. -/
def cacheEnv : RealEnv :=
  { fullMissEnv with appleEnv := appleM1Env }

/-- Environment for C9: nvidia-smi answers the two-field
`compute_cap,memory.total` query with two comma-separated integer fields. -/
def c9Env : NvidiaEnv :=
  { nvAllTimeout with
    smiQuery := TimedResult.timedOut
    smiProps := TimedResult.completed (CmdResult.finished true "8, 6" "") }

/-- NVIDIA environment whose main query output has a well-formed memory
triple but a non-numeric temperature field. -/
def c7NvidiaEnv : NvidiaEnv :=
  { nvAllTimeout with
    smiQuery := TimedResult.completed
      (CmdResult.finished true "0, 100, 10, 20, x, 40, 50" "") }

/-- Apple environment with a healthy ioreg but a powermetrics binary that
cannot be spawned. -/
def c7AppleEnv : AppleEnv :=
  { ioreg := CmdResult.finished true "\"gpu-memory-total-size\" = 4096\nM1" ""
    powermetrics := CmdResult.spawnFail "No such file or directory" }

/-- Real environment in which nvidia-smi reports seven fields whose
(misaligned) memory values do not sum: total 100, used 10, free 20. -/
def c8Env : RealEnv :=
  { nvidiaTimedOut := false
    nvidiaEnv :=
      { nvAllTimeout with
        smiQuery := TimedResult.completed
          (CmdResult.finished true "0, 100, 10, 20, 30, 40, 50" "") }
    appleTimedOut := false
    appleEnv := appleAbsentEnv }

/-- The record the real NVIDIA path produces from that output. -/
def c8Record : GpuInfo :=
  { gpu_type := GpuType.Nvidia
    cuda_version := none
    driver_version := none
    compute_capability := none
    temperature_c := some 30
    power_usage_w := some 40
    utilization_percent := some 50
    memory_total_mb := 100
    memory_used_mb := some 10
    memory_free_mb := some 20 }

/-! ### Helper lemmas -/

/-- Whatever `validateThen` returns successfully passes `validate`. -/
theorem validateThenOk (v info : HardwareInfo) :
    validateThen v = Except.ok info → info.validate = Except.ok () := by
  unfold validateThen
  intro h
  cases hv : v.validate with
  | error e => rw [hv] at h; simp at h
  | ok u =>
    rw [hv] at h
    rw [Except.ok.injEq] at h
    subst h
    cases u
    exact hv

/-- Any `HardwareInfo` returned by `try_get_hardware_info` passes `validate`
(the function validates before returning). -/
theorem tryGetValidate (s : SysSnapshot) (info : HardwareInfo) :
    try_get_hardware_info s = Except.ok info → info.validate = Except.ok () := by
  intro h
  simp only [try_get_hardware_info] at h
  split at h
  · simp at h
  · split at h
    · simp at h
    · split at h
      · simp at h
      · exact validateThenOk _ _ h

/-- The retry loop only returns records that pass `validate`. -/
theorem ghiLoopOk (l : List SysSnapshot) (lastError : Option HardwareError)
    (info : HardwareInfo) :
    (ghiLoop l lastError).1 = Except.ok info → info.validate = Except.ok () := by
  induction l generalizing lastError with
  | nil => intro h; exact absurd h (by simp [ghiLoop])
  | cons s rest ih =>
    intro h
    unfold ghiLoop at h
    split at h
    next info0 htry =>
      split at h
      next e hval => exact ih (some e) h
      next u hval =>
        rw [Except.ok.injEq] at h
        subst h
        rw [hval]
    next e htry => exact ih (some e) h

/-- The retry loop makes at most as many attempts as it has snapshots. -/
theorem ghiLoopLen (l : List SysSnapshot) (lastError : Option HardwareError) :
    (ghiLoop l lastError).2 ≤ l.length := by
  induction l generalizing lastError with
  | nil => simp [ghiLoop]
  | cons s rest ih =>
    unfold ghiLoop
    split
    next info0 htry =>
      split
      · simpa using Nat.succ_le_succ (ih _)
      · simp
    next e htry => simpa using Nat.succ_le_succ (ih _)

/-- A failing attempt adds one to the count and threads its error through. -/
theorem ghiLoopConsSome (s : SysSnapshot) (rest : List SysSnapshot)
    (lastError : Option HardwareError) (e : HardwareError)
    (h : attemptError s = some e) :
    ghiLoop (s :: rest) lastError =
      ((ghiLoop rest (some e)).1, (ghiLoop rest (some e)).2 + 1) := by
  unfold attemptError at h
  rcases hG : ghiLoop rest (some e) with ⟨r, n⟩
  cases htry : try_get_hardware_info s with
  | ok info0 =>
    cases hval : info0.validate with
    | error e2 =>
      have he : e2 = e := by simp [htry, hval] at h; exact h
      subst he
      simp [ghiLoop, htry, hval, hG]
    | ok u => simp [htry, hval] at h
  | error e2 =>
    have he : e2 = e := by simp [htry] at h; exact h
    subst he
    simp [ghiLoop, htry, hG]

/-! ### Claim theorems -/

/-- Claim C4: error simulation takes precedence over everything.  With the
error-simulation flag on, the orchestrator `gpu::detect_gpu`, the Apple
backend and the NVIDIA backend all fail immediately with the simulated
error, whatever the test-mode flag, the selected test GPU type, the cache
and the external environment are, with no process spawned and the cache
unchanged; and with the flag off again, behavior is exactly what it was
before the flag was ever enabled. -/
theorem c4_error_simulation_precedence :
    ∀ (t : Bool) (g : GpuType) (cache : Option GpuInfo) (e : RealEnv)
      (ea : AppleEnv) (en : NvidiaEnv) (m : ModeState),
    gpu_detect_gpu { testMode := t, errorSimulation := true, testGpuType := g } cache e
      = (PanicOr.ret (Except.error "Simulated GPU error"), cache, []) ∧
    apple_detect_gpu { testMode := t, errorSimulation := true, testGpuType := g } cache ea
      = (Except.error "Simulated GPU error", cache, []) ∧
    nvidia_detect_gpu { testMode := t, errorSimulation := true, testGpuType := g } en
      = (PanicOr.ret (Except.error "Simulated GPU error"), []) ∧
    gpu_detect_gpu (simulate_error false (simulate_error true m)) cache e
      = gpu_detect_gpu (simulate_error false m) cache e := by
  intro t g cache e ea en m
  exact ⟨rfl, rfl, rfl, rfl⟩

/-- Claim C5: with error simulation off and test mode on, `gpu::detect_gpu`
returns exactly the hardcoded fixture of the selected backend (the synthetic
no-accelerator record when the selector is `None`), spawns no external
process (empty trace), and neither reads nor writes the cache (the result is
the same for every cache value, which is passed through unchanged); the
Apple fixture is the record the claim spells out. -/
theorem c5_test_mode_fixture :
    ∀ (g : GpuType) (cache : Option GpuInfo) (e : RealEnv),
    gpu_detect_gpu { testMode := true, errorSimulation := false, testGpuType := g } cache e
      = (PanicOr.ret (Except.ok (match g with
          | GpuType.Nvidia => nvidiaFixture
          | GpuType.Apple => appleFixture
          | GpuType.None => noneGpuInfo)), cache, []) ∧
    appleFixture.gpu_type = GpuType.Apple ∧
    appleFixture.memory_total_mb = 8192 ∧
    appleFixture.temperature_c = some 45 ∧
    appleFixture.power_usage_w = some 15 ∧
    appleFixture.utilization_percent = some 30 := by
  intro g cache e
  refine ⟨?_, rfl, rfl, rfl, rfl, rfl⟩
  cases g <;> rfl

/-- Claim C10: every `HardwareInfo` that `get_hardware_info` returns
successfully passes the validation predicate (and so does everything the
inner `try_get_hardware_info` returns); at most 3 attempts are made; and
when every attempt fails, the error of the last (third) attempt is
returned. -/
theorem c10_hardware_info_validated :
    ∀ s1 s2 s3 : SysSnapshot,
    (∀ info, (get_hardware_info s1 s2 s3).1 = Except.ok info →
        info.validate = Except.ok ()) ∧
    (get_hardware_info s1 s2 s3).2 ≤ 3 ∧
    (∀ info, try_get_hardware_info s1 = Except.ok info →
        info.validate = Except.ok ()) ∧
    (∀ e1 e2 e3, attemptError s1 = some e1 → attemptError s2 = some e2 →
        attemptError s3 = some e3 →
        (get_hardware_info s1 s2 s3).1 = Except.error e3) := by
  intro s1 s2 s3
  refine ⟨fun info h => ghiLoopOk _ _ info h,
    ghiLoopLen [s1, s2, s3] none,
    fun info h => tryGetValidate s1 info h,
    ?_⟩
  intro e1 e2 e3 h1 h2 h3
  unfold get_hardware_info
  rw [ghiLoopConsSome s1 _ _ e1 h1]
  rw [ghiLoopConsSome s2 _ _ e2 h2]
  rw [ghiLoopConsSome s3 _ _ e3 h3]
  rfl

/-- Witness for C10 at a concrete input: with three all-failing snapshots the
operation returns the last attempt's error. -/
theorem c10_hardware_info_validated_witness :
    (get_hardware_info badSnapshot badSnapshot badSnapshot).1 =
      Except.error (HardwareError.CpuError "No CPU cores detected") :=
  (c10_hardware_info_validated badSnapshot badSnapshot badSnapshot).2.2.2
    (HardwareError.CpuError "No CPU cores detected")
    (HardwareError.CpuError "No CPU cores detected")
    (HardwareError.CpuError "No CPU cores detected")
    (by rfl) (by rfl) (by rfl)

/-- The powermetrics call spawns no backend probe (its trace has no
probe-entry events). -/
theorem probeEvents_getGpuMetrics (e : AppleEnv) :
    probeEvents (get_gpu_metrics e).2 = [] := by
  unfold get_gpu_metrics
  split
  · rfl
  · split <;> rfl

/-- The Apple backend's own trace contains no probe-entry events. -/
theorem probeEvents_apple (m : ModeState) (cache : Option GpuInfo) (e : AppleEnv) :
    probeEvents (apple_detect_gpu m cache e).2.2 = [] := by
  unfold apple_detect_gpu
  rcases hm : get_gpu_metrics e with ⟨mr, tr⟩
  have pm : probeEvents tr = [] := by
    have h := probeEvents_getGpuMetrics e
    rw [hm] at h
    exact h
  simp only [hm]
  repeat' (first | rfl | split)
  all_goals simp_all [probeEvents]
  all_goals exact ⟨rfl, rfl⟩

/-- The nvcc/ldconfig sub-call spawns no backend probe. -/
theorem probeEvents_getCudaInfo (m : ModeState) (e : NvidiaEnv) :
    probeEvents (get_cuda_info m e).2 = [] := by
  unfold get_cuda_info
  repeat' (first | rfl | split)

/-- The driver-version sub-call spawns no backend probe. -/
theorem probeEvents_getDriverVersion (m : ModeState) (e : NvidiaEnv) :
    probeEvents (get_driver_version m e).2 = [] := by
  unfold get_driver_version
  repeat' (first | rfl | split)

/-- The device-properties sub-call spawns no backend probe. -/
theorem probeEvents_getCudaDeviceProperties (m : ModeState) (e : NvidiaEnv) :
    probeEvents (get_cuda_device_properties m e).2 = [] := by
  unfold get_cuda_device_properties
  repeat' (first | rfl | split)

/-- The NVIDIA backend's own trace contains no probe-entry events. -/
theorem probeEvents_nvidia (m : ModeState) (e : NvidiaEnv) :
    probeEvents (nvidia_detect_gpu m e).2 = [] := by
  unfold nvidia_detect_gpu
  rcases hci : get_cuda_info m e with ⟨ci, tr1⟩
  rcases hdv : get_driver_version m e with ⟨dv, tr2⟩
  rcases hpr : get_cuda_device_properties m e with ⟨pr, tr3⟩
  have p1 : probeEvents tr1 = [] := by
    have h := probeEvents_getCudaInfo m e
    rw [hci] at h
    exact h
  have p2 : probeEvents tr2 = [] := by
    have h := probeEvents_getDriverVersion m e
    rw [hdv] at h
    exact h
  have p3 : probeEvents tr3 = [] := by
    have h := probeEvents_getCudaDeviceProperties m e
    rw [hpr] at h
    exact h
  simp only [hci, hdv, hpr]
  repeat' (first | rfl | split)
  all_goals simp_all [probeEvents, List.filter_append]
  all_goals
    exact ⟨⟨rfl, rfl⟩, fun a ha =>
      ha.elim (fun h1 => p1 a h1) (fun h => h.elim (fun h2 => p2 a h2) (fun h3 => p3 a h3))⟩

/-- A failing Apple probe never writes the cache. -/
theorem apple_error_cache (m : ModeState) (cache : Option GpuInfo) (e : AppleEnv)
    (msg : String) :
    (apple_detect_gpu m cache e).1 = Except.error msg →
    (apple_detect_gpu m cache e).2.1 = cache := by
  unfold apple_detect_gpu
  rcases hm : get_gpu_metrics e with ⟨mr, tr⟩
  simp only [hm]
  repeat' split
  all_goals intro h
  all_goals simp_all

/-- `probeEvents` distributes over append. -/
theorem probeEvents_append (a b : List Ev) :
    probeEvents (a ++ b) = probeEvents a ++ probeEvents b := by
  simp [probeEvents, List.filter_append]

/-- An Apple probe-entry event is kept by the probe filter. -/
theorem probeEvents_appleProbe_cons (l : List Ev) :
    probeEvents (Ev.appleProbe :: l) = Ev.appleProbe :: probeEvents l := rfl

/-- The Apple stage of the orchestrator contributes exactly one Apple
probe-entry event after the events already traced. -/
theorem appleStage_probeEvents (m : ModeState) (cache : Option GpuInfo)
    (e : RealEnv) (tr : List Ev) :
    probeEvents (appleStage m cache e tr).2.2 = probeEvents tr ++ [Ev.appleProbe] := by
  unfold appleStage
  rcases ha : apple_detect_gpu m cache e.appleEnv with ⟨r, c2, atr⟩
  have pa : probeEvents atr = [] := by
    have h := probeEvents_apple m cache e.appleEnv
    rw [ha] at h
    exact h
  simp only [ha]
  split
  · show probeEvents (tr ++ [Ev.appleProbe]) = probeEvents tr ++ [Ev.appleProbe]
    rw [probeEvents_append]
    rfl
  · split <;>
      (show probeEvents (tr ++ Ev.appleProbe :: atr) = probeEvents tr ++ [Ev.appleProbe];
       rw [probeEvents_append, probeEvents_appleProbe_cons, pa])

/-- Claim C3: in every real-mode orchestrator call the backends are tried in
the fixed order NVIDIA then Apple, each at most once: the probe-entry events
are exactly `[nvidiaProbe]` or `[nvidiaProbe, appleProbe]`; a first (NVIDIA)
success is returned as-is and the Apple backend is skipped; an NVIDIA
error or outer timeout makes the orchestrator proceed to the one Apple
attempt. -/
theorem c3_ordered_fallback :
    ∀ (g : GpuType) (cache : Option GpuInfo) (e : RealEnv),
    (probeEvents (gpu_detect_gpu ⟨false, false, g⟩ cache e).2.2 = [Ev.nvidiaProbe] ∨
     probeEvents (gpu_detect_gpu ⟨false, false, g⟩ cache e).2.2 =
       [Ev.nvidiaProbe, Ev.appleProbe]) ∧
    (∀ info, e.nvidiaTimedOut = false →
      (nvidia_detect_gpu ⟨false, false, g⟩ e.nvidiaEnv).1 = PanicOr.ret (Except.ok info) →
      (gpu_detect_gpu ⟨false, false, g⟩ cache e).1 = PanicOr.ret (Except.ok info) ∧
      probeEvents (gpu_detect_gpu ⟨false, false, g⟩ cache e).2.2 = [Ev.nvidiaProbe]) ∧
    (∀ msg, e.nvidiaTimedOut = false →
      (nvidia_detect_gpu ⟨false, false, g⟩ e.nvidiaEnv).1 = PanicOr.ret (Except.error msg) →
      probeEvents (gpu_detect_gpu ⟨false, false, g⟩ cache e).2.2 =
        [Ev.nvidiaProbe, Ev.appleProbe]) ∧
    (e.nvidiaTimedOut = true →
      probeEvents (gpu_detect_gpu ⟨false, false, g⟩ cache e).2.2 =
        [Ev.nvidiaProbe, Ev.appleProbe]) := by
  intro g cache e
  rcases hn : nvidia_detect_gpu ⟨false, false, g⟩ e.nvidiaEnv with ⟨nr, ntr⟩
  have pn : probeEvents ntr = [] := by
    have h := probeEvents_nvidia ⟨false, false, g⟩ e.nvidiaEnv
    rw [hn] at h
    exact h
  have hcons : ∀ l, probeEvents (Ev.nvidiaProbe :: l) = Ev.nvidiaProbe :: probeEvents l :=
    fun l => rfl
  by_cases ht : e.nvidiaTimedOut = true
  · have hg : gpu_detect_gpu ⟨false, false, g⟩ cache e =
        appleStage ⟨false, false, g⟩ cache e [Ev.nvidiaProbe] := by
      simp [gpu_detect_gpu, ht]
    have hp : probeEvents (gpu_detect_gpu ⟨false, false, g⟩ cache e).2.2 =
        [Ev.nvidiaProbe, Ev.appleProbe] := by
      rw [hg, appleStage_probeEvents]
      rfl
    refine ⟨Or.inr hp, ?_, ?_, fun _ => hp⟩
    · intro info hfalse
      rw [ht] at hfalse
      exact absurd hfalse (by simp)
    · intro msg hfalse
      rw [ht] at hfalse
      exact absurd hfalse (by simp)
  · cases nr with
    | panicked msg0 =>
      have hg : gpu_detect_gpu ⟨false, false, g⟩ cache e =
          (PanicOr.panicked msg0, cache, Ev.nvidiaProbe :: ntr) := by
        simp [gpu_detect_gpu, ht, hn]
      refine ⟨Or.inl ?_, ?_, ?_, fun h => absurd h ht⟩
      · rw [hg]
        show probeEvents (Ev.nvidiaProbe :: ntr) = [Ev.nvidiaProbe]
        rw [hcons, pn]
      · intro info _ hok
        simp at hok
      · intro msg _ herr
        simp at herr
    | ret r0 =>
      cases r0 with
      | ok info0 =>
        have hg : gpu_detect_gpu ⟨false, false, g⟩ cache e =
            (PanicOr.ret (Except.ok info0), cache, Ev.nvidiaProbe :: ntr) := by
          simp [gpu_detect_gpu, ht, hn]
        have hp : probeEvents (gpu_detect_gpu ⟨false, false, g⟩ cache e).2.2 =
            [Ev.nvidiaProbe] := by
          simp only [hg]
          show probeEvents (Ev.nvidiaProbe :: ntr) = [Ev.nvidiaProbe]
          rw [hcons, pn]
        refine ⟨Or.inl hp, ?_, ?_, fun h => absurd h ht⟩
        · intro info _ hok
          have heq : info0 = info := by simpa using hok
          subst heq
          exact ⟨by rw [hg], hp⟩
        · intro msg _ herr
          simp at herr
      | error msg0 =>
        have hg : gpu_detect_gpu ⟨false, false, g⟩ cache e =
            appleStage ⟨false, false, g⟩ cache e (Ev.nvidiaProbe :: ntr) := by
          simp [gpu_detect_gpu, ht, hn]
        have hp : probeEvents (gpu_detect_gpu ⟨false, false, g⟩ cache e).2.2 =
            [Ev.nvidiaProbe, Ev.appleProbe] := by
          rw [hg, appleStage_probeEvents, hcons, pn]
          rfl
        refine ⟨Or.inr hp, ?_, fun msg _ _ => hp, fun h => absurd h ht⟩
        intro info _ hok
        simp at hok

/-- Witness for C3 at a concrete input: when the NVIDIA probe fails, the
orchestrator proceeds to the Apple probe and the probe order is NVIDIA then
Apple, once each. -/
theorem c3_ordered_fallback_witness :
    probeEvents (gpu_detect_gpu ⟨false, false, GpuType.None⟩ none fullMissEnv).2.2 =
      [Ev.nvidiaProbe, Ev.appleProbe] :=
  (c3_ordered_fallback GpuType.None none fullMissEnv).2.2.1
    "NVIDIA GPU not found" rfl rfl

/-- Claim C6: in a real-mode orchestrator call in which the NVIDIA backend
returns a non-success (probe error or outer timeout) and the Apple backend
returns a non-success (probe error or outer timeout), the call still
succeeds with the synthesized no-accelerator record — vendor `None`, total
memory 0 and every optional field absent — and the cache is left exactly as
it was (the no-accelerator outcome is never written to it). -/
theorem c6_full_miss_not_cached :
    ∀ (g : GpuType) (cache : Option GpuInfo) (e : RealEnv),
    (e.nvidiaTimedOut = true ∨
      ∃ msg, (nvidia_detect_gpu ⟨false, false, g⟩ e.nvidiaEnv).1 =
        PanicOr.ret (Except.error msg)) →
    (e.appleTimedOut = true ∨
      ∃ msg, (apple_detect_gpu ⟨false, false, g⟩ cache e.appleEnv).1 =
        Except.error msg) →
    (gpu_detect_gpu ⟨false, false, g⟩ cache e).1 = PanicOr.ret (Except.ok noneGpuInfo) ∧
    (gpu_detect_gpu ⟨false, false, g⟩ cache e).2.1 = cache ∧
    noneGpuInfo.gpu_type = GpuType.None ∧
    noneGpuInfo.memory_total_mb = 0 ∧
    noneGpuInfo.cuda_version = none ∧
    noneGpuInfo.driver_version = none ∧
    noneGpuInfo.compute_capability = none ∧
    noneGpuInfo.temperature_c = none ∧
    noneGpuInfo.power_usage_w = none ∧
    noneGpuInfo.utilization_percent = none ∧
    noneGpuInfo.memory_used_mb = none ∧
    noneGpuInfo.memory_free_mb = none := by
  intro g cache e hNv hAp
  have stage : ∀ tr,
      (appleStage ⟨false, false, g⟩ cache e tr).1 = PanicOr.ret (Except.ok noneGpuInfo) ∧
      (appleStage ⟨false, false, g⟩ cache e tr).2.1 = cache := by
    intro tr
    rcases hAp with hat | ⟨msg, ha⟩
    · unfold appleStage
      rw [hat]
      exact ⟨rfl, rfl⟩
    · rcases haT : apple_detect_gpu ⟨false, false, g⟩ cache e.appleEnv with ⟨ar, ac, atr⟩
      have hc : ac = cache := by
        have h := apple_error_cache ⟨false, false, g⟩ cache e.appleEnv msg ha
        rw [haT] at h
        exact h
      have har : ar = Except.error msg := by
        rw [haT] at ha
        exact ha
      subst har
      subst hc
      unfold appleStage
      rw [haT]
      cases hot : e.appleTimedOut
      · simp
      · simp
  rcases hNv with hnt | ⟨msg, hn⟩
  · have hg : gpu_detect_gpu ⟨false, false, g⟩ cache e =
        appleStage ⟨false, false, g⟩ cache e [Ev.nvidiaProbe] := by
      simp [gpu_detect_gpu, hnt]
    simp only [hg]
    exact ⟨(stage _).1, (stage _).2, rfl, rfl, rfl, rfl, rfl, rfl, rfl, rfl, rfl, rfl⟩
  · rcases hnT : nvidia_detect_gpu ⟨false, false, g⟩ e.nvidiaEnv with ⟨nr, ntr⟩
    have hnr : nr = PanicOr.ret (Except.error msg) := by
      rw [hnT] at hn
      exact hn
    subst hnr
    by_cases ht : e.nvidiaTimedOut = true
    · have hg : gpu_detect_gpu ⟨false, false, g⟩ cache e =
          appleStage ⟨false, false, g⟩ cache e [Ev.nvidiaProbe] := by
        simp [gpu_detect_gpu, ht]
      simp only [hg]
      exact ⟨(stage _).1, (stage _).2, rfl, rfl, rfl, rfl, rfl, rfl, rfl, rfl, rfl, rfl⟩
    · have hg : gpu_detect_gpu ⟨false, false, g⟩ cache e =
          appleStage ⟨false, false, g⟩ cache e (Ev.nvidiaProbe :: ntr) := by
        simp [gpu_detect_gpu, ht, hnT]
      simp only [hg]
      exact ⟨(stage _).1, (stage _).2, rfl, rfl, rfl, rfl, rfl, rfl, rfl, rfl, rfl, rfl⟩

/-- Witness for C6 at a concrete input: on a host with neither nvidia-smi
nor ioreg, the orchestrator returns the no-accelerator record and the empty
cache stays empty. -/
theorem c6_full_miss_not_cached_witness :
    (gpu_detect_gpu ⟨false, false, GpuType.None⟩ none fullMissEnv).1 =
      PanicOr.ret (Except.ok noneGpuInfo) ∧
    (gpu_detect_gpu ⟨false, false, GpuType.None⟩ none fullMissEnv).2.1 = none := by
  have h := c6_full_miss_not_cached GpuType.None none fullMissEnv
    (Or.inr ⟨"NVIDIA GPU not found", rfl⟩)
    (Or.inr ⟨"Failed to execute ioreg: No such file or directory", rfl⟩)
  exact ⟨h.1, h.2.1⟩

/-- Claim C1 counterexample: with the Result Cache populated by a first
successful real-mode orchestrator call (NVIDIA absent, Apple M1 found), a
second real-mode orchestrator call does return the cached record, but it
invokes the NVIDIA backend probe again before the cache (held inside the
Apple backend) is consulted — its probe-entry trace is not empty, refuting
"the second call invokes no backend probe". -/
theorem c1_counterexample :
    (gpu_detect_gpu ⟨false, false, GpuType.None⟩ none cacheEnv).1 =
      PanicOr.ret (Except.ok (appleParsedInfo 4096)) ∧
    (gpu_detect_gpu ⟨false, false, GpuType.None⟩ none cacheEnv).2.1 =
      some (appleParsedInfo 4096) ∧
    (gpu_detect_gpu ⟨false, false, GpuType.None⟩ (some (appleParsedInfo 4096)) cacheEnv).1 =
      PanicOr.ret (Except.ok (appleParsedInfo 4096)) ∧
    probeEvents
        (gpu_detect_gpu ⟨false, false, GpuType.None⟩ (some (appleParsedInfo 4096)) cacheEnv).2.2 =
      [Ev.nvidiaProbe, Ev.appleProbe] ∧
    (probeEvents
        (gpu_detect_gpu ⟨false, false, GpuType.None⟩ (some (appleParsedInfo 4096)) cacheEnv).2.2).isEmpty
      = false := by
  exact ⟨rfl, rfl, rfl, rfl, rfl⟩

/-- Claim C2 (code bug evaluation): the host-facing command
`commands::detect_gpu` forwards to `gpu::apple::detect_gpu` directly; with
error simulation off, on a host where ioreg cannot be spawned the caller
receives a hardware-absence condition as an error instead of a fallback
record. -/
theorem c2_command_surfaces_probe_error :
    commands_detect_gpu ⟨false, false, GpuType.None⟩ none appleAbsentEnv =
      (Except.error "Failed to execute ioreg: No such file or directory", none,
        [Ev.evIoreg]) ∧
    (commands_detect_gpu ⟨false, false, GpuType.None⟩ none appleAbsentEnv).1.isOk
      = false := by
  exact ⟨rfl, rfl⟩

/-- Claim C9 (code bug evaluation): an nvidia-smi output of exactly two
fields passes the `values.len() < 2` guard, both fields parse as `u32`, and
the code then indexes `values[2]` out of bounds — a panic, not `None`. -/
theorem c9_guard_insufficient_panic :
    (get_cuda_device_properties ⟨false, false, GpuType.None⟩ c9Env).1 =
      PanicOr.panicked "index out of bounds" ∧
    (csvFields "8, 6").length = 2 ∧
    rust_parse_u32 ((csvFields "8, 6").getD 0 "") = some 8 ∧
    rust_parse_u32 ((csvFields "8, 6").getD 1 "") = some 6 := by
  exact ⟨rfl, rfl, rfl, rfl⟩

/-- In real mode a successful Apple probe leaves exactly its own record in
the cache (fresh write on a miss, unchanged on a hit). -/
theorem apple_ok_cache (g : GpuType) (cache : Option GpuInfo) (e : AppleEnv)
    (info : GpuInfo) :
    (apple_detect_gpu ⟨false, false, g⟩ cache e).1 = Except.ok info →
    (apple_detect_gpu ⟨false, false, g⟩ cache e).2.1 = some info := by
  unfold apple_detect_gpu
  rcases hm : get_gpu_metrics e with ⟨mr, tr⟩
  simp only [hm]
  repeat' split
  all_goals intro h
  all_goals simp_all

/-- A second Apple-backend call right after a first one (same environment)
returns the same result and leaves the same cache. -/
theorem apple_second_call (g : GpuType) (cache : Option GpuInfo) (e : AppleEnv) :
    (apple_detect_gpu ⟨false, false, g⟩
        (apple_detect_gpu ⟨false, false, g⟩ cache e).2.1 e).1 =
      (apple_detect_gpu ⟨false, false, g⟩ cache e).1 ∧
    (apple_detect_gpu ⟨false, false, g⟩
        (apple_detect_gpu ⟨false, false, g⟩ cache e).2.1 e).2.1 =
      (apple_detect_gpu ⟨false, false, g⟩ cache e).2.1 := by
  rcases h1 : apple_detect_gpu ⟨false, false, g⟩ cache e with ⟨r1, c1, tr1⟩
  cases r1 with
  | error msg =>
    have hc : c1 = cache := by
      have h := apple_error_cache ⟨false, false, g⟩ cache e msg (by rw [h1])
      rw [h1] at h
      exact h
    subst hc
    constructor
    · show (apple_detect_gpu ⟨false, false, g⟩ c1 e).1 =
        ((Except.error msg : Except String GpuInfo), c1, tr1).1
      rw [h1]
    · show (apple_detect_gpu ⟨false, false, g⟩ c1 e).2.1 =
        ((Except.error msg : Except String GpuInfo), c1, tr1).2.1
      rw [h1]
  | ok info =>
    have hc : c1 = some info := by
      have h := apple_ok_cache g cache e info (by rw [h1])
      rw [h1] at h
      exact h
    subst hc
    exact ⟨rfl, rfl⟩

/-- Evaluation of the orchestrator's Apple stage when the outer timeout does
not fire and the Apple backend succeeds. -/
theorem appleStage_eval_ok (m : ModeState) (cache : Option GpuInfo) (e : RealEnv)
    (tr : List Ev) (hT : e.appleTimedOut = false) (info : GpuInfo)
    (c2 : Option GpuInfo) (atr : List Ev)
    (h : apple_detect_gpu m cache e.appleEnv = (Except.ok info, c2, atr)) :
    (appleStage m cache e tr).1 = PanicOr.ret (Except.ok info) ∧
    (appleStage m cache e tr).2.1 = c2 := by
  constructor <;> simp [appleStage, hT, h]

/-- Evaluation of the orchestrator's Apple stage when the outer timeout does
not fire and the Apple backend fails. -/
theorem appleStage_eval_error (m : ModeState) (cache : Option GpuInfo) (e : RealEnv)
    (tr : List Ev) (hT : e.appleTimedOut = false) (msg : String)
    (c2 : Option GpuInfo) (atr : List Ev)
    (h : apple_detect_gpu m cache e.appleEnv = (Except.error msg, c2, atr)) :
    (appleStage m cache e tr).1 = PanicOr.ret (Except.ok noneGpuInfo) ∧
    (appleStage m cache e tr).2.1 = c2 := by
  constructor <;> simp [appleStage, hT, h]

/-- A second Apple stage right after a first one returns the same result and
cache, whatever events were already traced. -/
theorem appleStage_second (g : GpuType) (cache : Option GpuInfo) (e : RealEnv)
    (tr tr2 : List Ev) :
    (appleStage ⟨false, false, g⟩
        (appleStage ⟨false, false, g⟩ cache e tr).2.1 e tr2).1 =
      (appleStage ⟨false, false, g⟩ cache e tr).1 ∧
    (appleStage ⟨false, false, g⟩
        (appleStage ⟨false, false, g⟩ cache e tr).2.1 e tr2).2.1 =
      (appleStage ⟨false, false, g⟩ cache e tr).2.1 := by
  by_cases ht : e.appleTimedOut = true
  · constructor <;> simp [appleStage, ht]
  · have hT : e.appleTimedOut = false := by
      cases hb : e.appleTimedOut
      · rfl
      · exact absurd hb ht
    rcases h1 : apple_detect_gpu ⟨false, false, g⟩ cache e.appleEnv with ⟨r1, c1, atr1⟩
    rcases h2 : apple_detect_gpu ⟨false, false, g⟩ c1 e.appleEnv with ⟨r2, c2v, atr2⟩
    have hA := apple_second_call g cache e.appleEnv
    rw [h1] at hA
    dsimp only at hA
    rw [h2] at hA
    dsimp only at hA
    obtain ⟨hr, hc⟩ := hA
    subst hr
    subst hc
    cases r2 with
    | ok info =>
      have s1 := appleStage_eval_ok ⟨false, false, g⟩ cache e tr hT info c2v atr1 h1
      have s2 := appleStage_eval_ok ⟨false, false, g⟩ c2v e tr2 hT info c2v atr2 h2
      rw [s1.2]
      exact ⟨by rw [s2.1, s1.1], by rw [s2.2]⟩
    | error msg =>
      have s1 := appleStage_eval_error ⟨false, false, g⟩ cache e tr hT msg c2v atr1 h1
      have s2 := appleStage_eval_error ⟨false, false, g⟩ c2v e tr2 hT msg c2v atr2 h2
      rw [s1.2]
      exact ⟨by rw [s2.1, s1.1], by rw [s2.2]⟩

/-- Two consecutive real-mode orchestrator calls with the same external
environment return the same result and leave the same cache. -/
theorem gpu_second_call (g : GpuType) (cache : Option GpuInfo) (e : RealEnv) :
    (gpu_detect_gpu ⟨false, false, g⟩
        (gpu_detect_gpu ⟨false, false, g⟩ cache e).2.1 e).1 =
      (gpu_detect_gpu ⟨false, false, g⟩ cache e).1 ∧
    (gpu_detect_gpu ⟨false, false, g⟩
        (gpu_detect_gpu ⟨false, false, g⟩ cache e).2.1 e).2.1 =
      (gpu_detect_gpu ⟨false, false, g⟩ cache e).2.1 := by
  by_cases ht : e.nvidiaTimedOut = true
  · have hg : ∀ c, gpu_detect_gpu ⟨false, false, g⟩ c e =
        appleStage ⟨false, false, g⟩ c e [Ev.nvidiaProbe] := by
      intro c
      simp [gpu_detect_gpu, ht]
    simp only [hg]
    exact appleStage_second g cache e [Ev.nvidiaProbe] [Ev.nvidiaProbe]
  · rcases hn : nvidia_detect_gpu ⟨false, false, g⟩ e.nvidiaEnv with ⟨nr, ntr⟩
    cases nr with
    | panicked msg =>
      have hg : ∀ c, gpu_detect_gpu ⟨false, false, g⟩ c e =
          (PanicOr.panicked msg, c, Ev.nvidiaProbe :: ntr) := by
        intro c
        simp [gpu_detect_gpu, ht, hn]
      simp only [hg]
      exact ⟨trivial, trivial⟩
    | ret r0 =>
      cases r0 with
      | ok info =>
        have hg : ∀ c, gpu_detect_gpu ⟨false, false, g⟩ c e =
            (PanicOr.ret (Except.ok info), c, Ev.nvidiaProbe :: ntr) := by
          intro c
          simp [gpu_detect_gpu, ht, hn]
        simp only [hg]
        exact ⟨trivial, trivial⟩
      | error msg =>
        have hg : ∀ c, gpu_detect_gpu ⟨false, false, g⟩ c e =
            appleStage ⟨false, false, g⟩ c e (Ev.nvidiaProbe :: ntr) := by
          intro c
          simp [gpu_detect_gpu, ht, hn]
        simp only [hg]
        exact appleStage_second g cache e _ _

/-- Claim C1 (amended): the Result Cache lives inside the Apple backend, not
the orchestrator.  With the cache populated, a call to the Apple backend's
detect — which is exactly what the host-facing `commands::detect_gpu`
invokes — returns the cached record itself (identical vendor tag and total
memory) with the cache unchanged and an empty trace: no backend probe and no
external process runs before the cache is served.  Through the orchestrator
`gpu::detect_gpu`, a second consecutive real-mode call still returns a
record and cache identical to the first call's, but the NVIDIA probe is
re-invoked first (as the counterexample shows). -/
theorem c1_cache_amended :
    (∀ (g : GpuType) (info : GpuInfo) (e : AppleEnv),
      apple_detect_gpu ⟨false, false, g⟩ (some info) e =
        (Except.ok info, some info, [])) ∧
    (∀ (g : GpuType) (info : GpuInfo) (e : AppleEnv),
      commands_detect_gpu ⟨false, false, g⟩ (some info) e =
        (Except.ok info, some info, [])) ∧
    (∀ (g : GpuType) (cache : Option GpuInfo) (e : RealEnv),
      (gpu_detect_gpu ⟨false, false, g⟩
          (gpu_detect_gpu ⟨false, false, g⟩ cache e).2.1 e).1 =
        (gpu_detect_gpu ⟨false, false, g⟩ cache e).1 ∧
      (gpu_detect_gpu ⟨false, false, g⟩
          (gpu_detect_gpu ⟨false, false, g⟩ cache e).2.1 e).2.1 =
        (gpu_detect_gpu ⟨false, false, g⟩ cache e).2.1) :=
  ⟨fun _ _ _ => rfl, fun _ _ _ => rfl, fun g cache e => gpu_second_call g cache e⟩

/-- Claim C7 counterexample: metric failures inside a probe can fail the
whole probe.  In the NVIDIA probe, a temperature field that does not parse
makes `detect_gpu` return an error even though the mandatory memory fields
parsed; in the Apple probe, a powermetrics spawn failure fails the probe
even though the mandatory ioreg detection succeeded. -/
theorem c7_counterexample :
    (nvidia_detect_gpu ⟨false, false, GpuType.None⟩ c7NvidiaEnv).1 =
      PanicOr.ret (Except.error "Failed to parse temperature") ∧
    rust_parse_u32 ((csvFields "0, 100, 10, 20, x, 40, 50").getD 1 "") = some 100 ∧
    rust_parse_f32 "x" = none ∧
    (apple_detect_gpu ⟨false, false, GpuType.None⟩ none c7AppleEnv).1 =
      Except.error "Failed to execute powermetrics: No such file or directory" ∧
    parse_gpu_info "\"gpu-memory-total-size\" = 4096\nM1" =
      Except.ok (appleParsedInfo 4096) := by
  exact ⟨rfl, rfl, rfl, rfl, rfl⟩

/-- Claim C7 (amended): metrics degradation holds only for the best-effort
sub-calls.  In the Apple probe, a powermetrics run that exits unsuccessfully
degrades temperature, power and utilization to `None` without failing the
probe, provided the mandatory ioreg detection parsed.  In the NVIDIA probe,
failures of the CUDA-info, driver-version and device-properties sub-calls
degrade the corresponding fields to `None` while the probe still succeeds.
But a temperature/power/utilization field of the main nvidia-smi query that
fails to parse fails the whole NVIDIA probe, and a powermetrics spawn
failure fails the whole Apple probe (the counterexample). -/
theorem c7_metrics_degradation_amended :
    (∀ (g : GpuType) (out pmOut pmErr : String) (gi : GpuInfo),
      parse_gpu_info out = Except.ok gi →
      (apple_detect_gpu ⟨false, false, g⟩ none
          { ioreg := CmdResult.finished true out ""
            powermetrics := CmdResult.finished false pmOut pmErr }).1 =
        Except.ok { gi with utilization_percent := none, power_usage_w := none,
                            temperature_c := none }) ∧
    (∀ (g : GpuType) (env : NvidiaEnv) (info : GpuInfo),
      env.nvcc = TimedResult.timedOut →
      env.smiDriver = TimedResult.timedOut →
      env.smiProps = TimedResult.timedOut →
      (nvidia_detect_gpu ⟨false, false, g⟩ env).1 = PanicOr.ret (Except.ok info) →
      info.cuda_version = none ∧ info.driver_version = none ∧
        info.compute_capability = none) := by
  constructor
  · intro g out pmOut pmErr gi hparse
    simp [apple_detect_gpu, get_gpu_metrics, hparse]
  · intro g env info hn hd hp hok
    have h1 : get_cuda_info ⟨false, false, g⟩ env = (none, [Ev.evNvcc]) := by
      simp [get_cuda_info, hn]
    have h2 : get_driver_version ⟨false, false, g⟩ env = (none, [Ev.evSmiDriver]) := by
      simp [get_driver_version, hd]
    have h3 : get_cuda_device_properties ⟨false, false, g⟩ env =
        (PanicOr.ret none, [Ev.evSmiProps]) := by
      simp [get_cuda_device_properties, hp]
    unfold nvidia_detect_gpu at hok
    simp only [h1, h2, h3] at hok
    repeat' split at hok
    all_goals simp_all
    subst hok
    exact ⟨rfl, rfl, rfl⟩

/-- Witness for C7 (amended) at a concrete input: ioreg reports an M1 with
4096 MB, powermetrics exits unsuccessfully, and the Apple probe still
succeeds with all three metric fields absent. -/
theorem c7_metrics_degradation_amended_witness :
    (apple_detect_gpu ⟨false, false, GpuType.None⟩ none
        { ioreg := CmdResult.finished true "\"gpu-memory-total-size\" = 4096\nM1" ""
          powermetrics := CmdResult.finished false "" "" }).1 =
      Except.ok (appleParsedInfo 4096) :=
  c7_metrics_degradation_amended.1 GpuType.None
    "\"gpu-memory-total-size\" = 4096\nM1" "" "" (appleParsedInfo 4096) rfl

/-- Claim C8 counterexample: the real NVIDIA detection path copies the
parsed values into the record without enforcing the memory-sum invariant, so
the orchestrator can return a record with used 10, free 20 but total 100. -/
theorem c8_counterexample :
    (gpu_detect_gpu ⟨false, false, GpuType.None⟩ none c8Env).1 =
      PanicOr.ret (Except.ok c8Record) ∧
    c8Record.memory_used_mb = some 10 ∧
    c8Record.memory_free_mb = some 20 ∧
    c8Record.memory_total_mb = 100 ∧
    memInv c8Record = false := by
  exact ⟨rfl, rfl, rfl, rfl, rfl⟩

/-- Whatever `parse_gpu_info` returns has both optional memory fields
absent. -/
theorem parse_gpu_info_memory (out : String) (gi : GpuInfo) :
    parse_gpu_info out = Except.ok gi →
    gi.memory_used_mb = none ∧ gi.memory_free_mb = none := by
  unfold parse_gpu_info
  intro h
  repeat' split at h
  all_goals simp_all [appleParsedInfo]
  all_goals (rw [← h]; exact ⟨rfl, rfl⟩)

/-- Claim C8 (amended): the memory-sum invariant holds for the hardcoded
fixtures, the no-accelerator record, and — given it holds for whatever is in
the cache — for every record the Apple backend returns in real mode (its
parse never populates used/free memory); the real NVIDIA path does not
enforce it and can return a violating record (the counterexample). -/
theorem c8_memory_invariant_amended :
    memInv appleFixture = true ∧
    memInv nvidiaFixture = true ∧
    memInv noneGpuInfo = true ∧
    (∀ (g : GpuType) (cache : Option GpuInfo) (e : AppleEnv) (info : GpuInfo),
      (∀ x, cache = some x → memInv x = true) →
      (apple_detect_gpu ⟨false, false, g⟩ cache e).1 = Except.ok info →
      memInv info = true) := by
  refine ⟨rfl, rfl, rfl, ?_⟩
  intro g cache e info hcache hok
  unfold apple_detect_gpu at hok
  rcases hm : get_gpu_metrics e with ⟨mr, tr⟩
  rw [hm] at hok
  repeat' split at hok
  all_goals simp_all
  rename_i hparse
  subst hok
  rcases parse_gpu_info_memory _ _ hparse with ⟨hu, hf⟩
  simp [memInv, hu, hf]

/-- Witness for C8 (amended) at a concrete input: a cache holding the Apple
fixture is served as-is and satisfies the invariant. -/
theorem c8_memory_invariant_amended_witness : memInv appleFixture = true :=
  c8_memory_invariant_amended.2.2.2 GpuType.None (some appleFixture)
    appleAbsentEnv appleFixture
    (fun x h => by cases h; decide)
    rfl
